import Mathlib

/-!
Verification of the Skylark Drone-Operations conversational agent
(`src/app.py`) against its natural-language specification.

The Python code is shallowly embedded in Lean:

* Python text values are modelled as `List Char` (`Str` below); Python's
  substring operator `in` becomes `List.isInfixOf`, `str.lower()` /
  `str.upper()` become character-wise `lowerChar` / `upperChar`
  (ASCII case mapping, which coincides with Python on the ASCII inputs
  handled by this program).
* pandas `DataFrame`s holding the three sheets become lists of typed
  records (`Pilot`, `Drone`, `Mission`), in row order; a boolean-mask
  filter becomes `List.filter`, row lookup by id becomes `List.find?`.
* `pd.to_datetime` comparisons of the ISO `YYYY-MM-DD` date strings used
  throughout the sheets coincide with lexicographic string comparison,
  which is how `dateGt` models them.
* fallible operations (worksheet lookups that raise, `int()` parses that
  raise) return `Option` / an explicit result constructor; the text of a
  Python exception message is not modelled.
* the `detail` message field of a conflict record is presentational and is
  not modelled; `type`, `entity` and `severity` are.

The literal `"‚Äì"` below is not a transcription accident: the source file
`src/app.py` genuinely contains these three characters (bytes
`e2 80 9a c3 84 c3 ac`) as its "no assignment" sentinel, and the embedding
reproduces them exactly.
-/

/-- Python strings, modelled as lists of characters. -/
abbrev Str := List Char

/-- ASCII lower-casing of one character, as Python `str.lower` acts on ASCII. -/
def lowerChar (c : Char) : Char :=
  if 65 ≤ c.toNat ∧ c.toNat ≤ 90 then Char.ofNat (c.toNat + 32) else c

/-- ASCII upper-casing of one character, as Python `str.upper` acts on ASCII. -/
def upperChar (c : Char) : Char :=
  if 97 ≤ c.toNat ∧ c.toNat ≤ 122 then Char.ofNat (c.toNat - 32) else c

/-- Whitespace for Python's no-argument `str.split`. -/
def isWsChar (c : Char) : Bool :=
  c == ' ' || c == '\t' || c == '\n' || c == '\r'

/-- ASCII decimal digit test (`str.isdigit` on ASCII input). -/
def isDigitChar (c : Char) : Bool :=
  decide (48 ≤ c.toNat ∧ c.toNat ≤ 57)

/-- Numeric value of an ASCII digit character. -/
def digitVal (c : Char) : Nat := c.toNat - 48

/-- Python `str.strip()`: drop leading and trailing whitespace. -/
def strip (s : Str) : Str :=
  ((s.dropWhile isWsChar).reverse.dropWhile isWsChar).reverse

/-- Helper for `splitComma`; `acc` holds the current field reversed. -/
def splitCommaAux : Str → Str → List Str
  | [], acc => [acc.reverse]
  | c :: cs, acc =>
    if c = ',' then acc.reverse :: splitCommaAux cs [] else splitCommaAux cs (c :: acc)

/-- Python `str.split(',')`: split at every comma, keeping empty fields. -/
def splitComma (s : Str) : List Str := splitCommaAux s []

/-- Helper for `splitWs`; `acc` holds the current word reversed. -/
def splitWsAux : Str → Str → List Str
  | [], acc => if acc.isEmpty then [] else [acc.reverse]
  | c :: cs, acc =>
    if isWsChar c then
      if acc.isEmpty then splitWsAux cs [] else acc.reverse :: splitWsAux cs []
    else splitWsAux cs (c :: acc)

/-- Python `str.split()` with no argument: split on whitespace runs, no empties. -/
def splitWs (s : Str) : List Str := splitWsAux s []

/-- Lexicographic strict order on character lists.  On the ISO `YYYY-MM-DD`
date strings stored in the sheets this coincides with the chronological
order that `pd.to_datetime` comparison produces. -/
def strLt : Str → Str → Bool
  | [], [] => false
  | [], _ :: _ => true
  | _ :: _, [] => false
  | a :: as, b :: bs => if a < b then true else if b < a then false else strLt as bs

/-- Model of `pd.to_datetime(a) > pd.to_datetime(b)` for ISO date strings. -/
def dateGt (a b : Str) : Bool := strLt b a

/-- Helper for `natToChars`: decimal digits of `n`, most significant first.
The first argument is fuel; `n` itself is always enough fuel. -/
def natToCharsAux : Nat → Nat → Str
  | 0, _ => []
  | _ + 1, 0 => []
  | fuel + 1, n + 1 =>
    natToCharsAux fuel ((n + 1) / 10) ++ [Nat.digitChar ((n + 1) % 10)]

/-- Python `str(n)` for a natural number. -/
def natToChars (n : Nat) : Str :=
  if n = 0 then ['0'] else natToCharsAux n n

/-- Python `int(s)` restricted to plain decimal-digit strings; any other
input raises `ValueError`, modelled as `none`. -/
def parseNat? (s : Str) : Option Nat :=
  if s ≠ [] ∧ s.all isDigitChar then
    some (s.foldl (fun a c => 10 * a + digitVal c) 0)
  else none

/-- Python `str.zfill(w)`: left-pad with `'0'` to width `w`. -/
def zfill (w : Nat) (s : Str) : Str :=
  List.replicate (w - s.length) '0' ++ s

/-- Python's substring operator: `isSubstrOf n h` models `n in h` for strings.
An empty needle is contained in everything, as in Python. -/
def isSubstrOf : Str → Str → Bool
  | n, [] => n.isEmpty
  | n, c :: t => n.isPrefixOf (c :: t) || isSubstrOf n t

/-- The "no assignment" sentinel exactly as it appears in `src/app.py`. -/
def noneSentinel : Str := "‚Äì".toList

/-- One row of the Pilots sheet, fields in column order. -/
structure Pilot where
  pilot_id : Str
  name : Str
  location : Str
  skills : Str
  status : Str
  current_assignment : Str
  available_from : Str
  deriving DecidableEq, Repr

/-- One row of the Drones sheet, fields in column order. -/
structure Drone where
  drone_id : Str
  model : Str
  location : Str
  status : Str
  current_assignment : Str
  flight_hours : Str
  last_maintenance : Str
  deriving DecidableEq, Repr

/-- One row of the Missions sheet, fields in column order. -/
structure Mission where
  project_id : Str
  project_name : Str
  location : Str
  status : Str
  start_date : Str
  end_date : Str
  required_skills : Str
  assigned_pilot : Str
  assigned_drone : Str
  deriving DecidableEq, Repr

/-- One conflict record produced by `OpsAgent.check_conflicts`.  The
`detail` message is presentational and not modelled. -/
structure Conflict where
  type : String
  entity : Str
  severity : String
  deriving DecidableEq, Repr

/-- Required skills of a mission:
`[x.strip() for x in m['required_skills'].split(',')]`. -/
def reqSkills (m : Mission) : List Str :=
  (splitComma m.required_skills).map strip

/-- Conflicts contributed by one pilot row in `check_conflicts`
(`src/app.py` lines 84-109).  A pilot is examined only when its
`current_assignment` is truthy and differs from the sentinel; when the
referenced mission is missing, nothing is reported. -/
def pilotConflicts (missions : List Mission) (p : Pilot) : List Conflict :=
  if p.current_assignment ≠ [] ∧ p.current_assignment ≠ noneSentinel then
    match missions.find? (fun m => m.project_id == p.current_assignment) with
    | none => []
    | some m =>
      (if dateGt p.available_from m.end_date then
        [{ type := "Pilot Date Overlap", entity := p.name, severity := "High" }]
      else []) ++
      (if ((reqSkills m).filter (fun s => ¬ isSubstrOf s p.skills)).isEmpty then []
      else [{ type := "Skill Mismatch", entity := p.name, severity := "Medium" }])
  else []

/-- Conflicts contributed by one drone row in `check_conflicts`
(`src/app.py` lines 111-130). -/
def droneConflicts (missions : List Mission) (d : Drone) : List Conflict :=
  if d.current_assignment ≠ [] ∧ d.current_assignment ≠ noneSentinel then
    (if d.status == "Maintenance".toList then
      [{ type := "Drone in Maintenance", entity := d.drone_id, severity := "High" }]
    else []) ++
    (match missions.find? (fun m => m.project_id == d.current_assignment) with
    | none => []
    | some m =>
      if d.location ≠ m.location then
        [{ type := "Drone Location Mismatch", entity := d.drone_id, severity := "Medium" }]
      else [])
  else []

/-- `OpsAgent.check_conflicts` (`src/app.py` lines 81-132): the pilot loop
followed by the drone loop, appending each row's conflicts in order. -/
def check_conflicts (pilots : List Pilot) (drones : List Drone)
    (missions : List Mission) : List Conflict :=
  (pilots.flatMap (pilotConflicts missions)) ++ (drones.flatMap (droneConflicts missions))

/-- Normalization done by the agent on mission ids:
`str(project_id).strip().upper()`. -/
def normalizeProjectId (pid : Str) : Str := (strip pid).map upperChar

/-- Candidate score (`src/app.py` lines 154-156):
`sum(1 for s in req_skills if s in x)` where `x` is the pilot's raw
skills string, so membership is a substring test. -/
def scoreOf (m : Mission) (p : Pilot) : Nat :=
  (reqSkills m).countP (fun s => isSubstrOf s p.skills)

/-- The candidate filter of `recommend_replacement` (lines 146-149):
status equals `'Available'` and location equals the mission's location. -/
def eligible (pilots : List Pilot) (m : Mission) : List Pilot :=
  pilots.filter (fun p => p.status == "Available".toList && p.location == m.location)

/-- Insertion into a key-descending list; an element is placed before the
first entry whose key is less than or equal to its own, so earlier input
elements precede later ones with an equal key. -/
def insertDescBy {α : Type} (key : α → Nat) (x : α) : List α → List α
  | [] => [x]
  | y :: ys => if key y ≤ key x then x :: y :: ys else y :: insertDescBy key x ys

/-- Descending sort by a natural-number key, modelling
`DataFrame.sort_values(by='score', ascending=False)` up to the order of
equal keys.  The library call guarantees only a permutation of the rows
that is sorted descending by score: its default `kind='quicksort'` (numpy
introsort) does not guarantee how ties are ordered.  This embedding has to
compute some output, and instantiates the unspecified tie order with the
stable one; every theorem proved over the ranker below is invariant under
the order of equal keys, so nothing is derived from that choice. -/
def sortDescBy {α : Type} (key : α → Nat) : List α → List α
  | [] => []
  | x :: xs => insertDescBy key x (sortDescBy key xs)

/-- Scoring and sorting stage of `recommend_replacement` (lines 154-158).
Rows are tagged with their original position, mirroring the row index a
`DataFrame` keeps through `sort_values`. -/
def rankCandidates (m : Mission) (cs : List Pilot) : List (Nat × Pilot × Nat) :=
  sortDescBy (fun x => x.2.2) (cs.map (fun p => (p, scoreOf m p))).enum

/-- `OpsAgent.recommend_replacement` (`src/app.py` lines 134-160), returning
each ranked candidate with its score.  The single empty list models the
bare `pd.DataFrame()` returned both when the mission id does not resolve
(line 140) and when no pilot passes the filter (line 152); the projection
to display columns (lines 159-160) is presentational. -/
def recommend_replacement (pilots : List Pilot) (missions : List Mission)
    (project_id : Str) : List (Pilot × Nat) :=
  let pid := normalizeProjectId project_id
  match missions.find? (fun m => m.project_id == pid) with
  | none => []
  | some m =>
    let candidates := eligible pilots m
    if candidates.isEmpty then []
    else (rankCandidates m candidates).map (fun x => x.2)

/-- Substring keyword test against the lowered input: `k in user_input_lower`. -/
def hasKw (lo : Str) (k : String) : Bool := isSubstrOf k.toList lo

/-- The intent priority chain of `parse_intent` (`src/app.py` lines 423-449):
first the explicit `if/elif` ladder, then the remaining dictionary groups
(`recommend`, `update_status`, `check_status`, `find_info`) in insertion
order, first match winning. -/
def detect_intent (lo : Str) : Option String :=
  if hasKw lo "delete" || hasKw lo "remove" then some "delete"
  else if hasKw lo "edit" || hasKw lo "modify" || hasKw lo "change field" ||
      hasKw lo "update field" then some "edit"
  else if hasKw lo "add" || hasKw lo "create" || hasKw lo "new" ||
      hasKw lo "register" then some "create"
  else if hasKw lo "not working" || hasKw lo "not available" || hasKw lo "broken" ||
      hasKw lo "down" || hasKw lo "offline" || hasKw lo "unavailable" then
    some "show_non_working"
  else if hasKw lo "assign" || hasKw lo "assignment" || hasKw lo "allocate" then
    some "assign"
  else if hasKw lo "show available" || hasKw lo "list available" then
    some "show_available"
  else if hasKw lo "show all drones" || hasKw lo "list all drones" ||
      hasKw lo "all drones" || hasKw lo "show drones" || hasKw lo "list drones" then
    some "show_roster"
  else if hasKw lo "show all pilots" || hasKw lo "list all pilots" ||
      hasKw lo "all pilots" || hasKw lo "show pilots" || hasKw lo "list pilots" then
    some "show_roster"
  else if hasKw lo "show missions" || hasKw lo "list missions" ||
      hasKw lo "active missions" || hasKw lo "all missions" then some "show_missions"
  else if hasKw lo "recommend" || hasKw lo "replacement" || hasKw lo "who can" ||
      hasKw lo "suggest" then some "recommend"
  else if hasKw lo "update status" || hasKw lo "set status" || hasKw lo "mark as" ||
      hasKw lo "change status" then some "update_status"
  else if hasKw lo "status of" || hasKw lo "check status" || hasKw lo "is available" then
    some "check_status"
  else if hasKw lo "find" || hasKw lo "show" || hasKw lo "get" || hasKw lo "details" ||
      hasKw lo "info" || hasKw lo "where is" || hasKw lo "who is" then some "find_info"
  else none

/-- Per-token entity classification of `parse_intent` (lines 456-469): the
uppercased token is a mission id when it starts with `PRJ` and holds a
digit, else a pilot id on prefix `P0`, else a drone id on prefix `D0`. -/
def classifyWord (w : Str) : Option (Str × String) :=
  let wu := w.map upperChar
  if ("PRJ".toList).isPrefixOf wu && wu.any isDigitChar then some (wu, "mission")
  else if ("P0".toList).isPrefixOf wu && wu.any isDigitChar then some (wu, "pilot")
  else if ("D0".toList).isPrefixOf wu && wu.any isDigitChar then some (wu, "drone")
  else none

/-- `user_input.replace("?", "").replace(".", "")` (line 452). -/
def stripPunct (s : Str) : Str := s.filter (fun c => !(c == '?' || c == '.'))

/-- Entity extraction of `parse_intent` (lines 451-469): split the
punctuation-stripped input on whitespace and classify the first token
that matches an id pattern. -/
def extract_entity (input : Str) : Option (Str × String) :=
  (splitWs (stripPunct input)).findSome? classifyWord

/-- `parse_intent` (`src/app.py` lines 400-471): a pure function of the
input text returning `(detected_intent, entity_id, entity_type,
user_input_lower)`. -/
def parse_intent (input : Str) :
    Option String × Option Str × Option String × Str :=
  (detect_intent (input.map lowerChar),
   (extract_entity input).map (fun e => e.1),
   (extract_entity input).map (fun e => e.2),
   input.map lowerChar)

/-- The next sequential pilot id (`OpsAgent.add_pilot`, lines 205-211):
with a non-empty roster, take `max(int(p[1:]) for P-prefixed ids) + 1`,
zero-filled to width 3.  `none` models the `ValueError` raised when a
`P`-prefixed id has a non-numeric tail or when no id starts with `P`
(`max` of an empty sequence); `add_pilot` then returns the error text. -/
def next_pilot_id (pilots : List Pilot) : Option Str :=
  if pilots.isEmpty then some ("P001".toList)
  else
    let tails := (pilots.map (fun p => p.pilot_id)).filterMap
      (fun s => if ("P".toList).isPrefixOf s then some (s.drop 1) else none)
    match tails.mapM parseNat? with
    | none => none
    | some [] => none
    | some (n :: rest) =>
      some ('P' :: zfill 3 (natToChars ((n :: rest).foldl Nat.max 0 + 1)))

/-- The field values collected for a new pilot before `add_pilot` fills in
the id (`src/app.py` lines 547-554). -/
structure PilotForm where
  name : Str
  location : Str
  skills : Str
  status : Str
  current_assignment : Str
  available_from : Str
  deriving DecidableEq, Repr

/-- `OpsAgent.add_pilot` (lines 201-221): allocate the next id and append
the row.  `none` models the exception path, in which the sheet is left
unchanged and the error text is returned instead of an id. -/
def add_pilot (pilots : List Pilot) (d : PilotForm) : Option (Str × List Pilot) :=
  match next_pilot_id pilots with
  | none => none
  | some nid =>
    some (nid, pilots ++
      [{ pilot_id := nid, name := d.name, location := d.location, skills := d.skills,
         status := d.status, current_assignment := d.current_assignment,
         available_from := d.available_from }])

/-- `OpsAgent.get_pilot_info` (lines 180-184): first row with the given id. -/
def get_pilot_info (pilots : List Pilot) (pid : Str) : Option Pilot :=
  pilots.find? (fun p => p.pilot_id == pid)

/-- The `awaiting_pilot_details` dialogue step (`src/app.py` lines 544-563):
split the reply on commas, strip each part, and when at least four parts
are present submit them with default status `'Available'` and the sentinel
assignment; the second component is `some newId` exactly when the step
reports success (`result.startswith('P')`). -/
def pilot_create_details_step (prompt : Str) (pilots : List Pilot) :
    List Pilot × Option Str :=
  let parts := (splitComma prompt).map strip
  if 4 ≤ parts.length then
    match add_pilot pilots
      { name := parts.getD 0 [], location := parts.getD 1 [],
        skills := parts.getD 2 [], available_from := parts.getD 3 [],
        status := "Available".toList, current_assignment := noneSentinel } with
    | some (nid, ps1) =>
      (ps1, if ("P".toList).isPrefixOf nid then some nid else none)
    | none => (pilots, none)
  else (pilots, none)

/-- Replace the element at one position, leaving the list unchanged when
the index is out of range. -/
def updateAt {α : Type} (i : Nat) (f : α → α) : List α → List α
  | [] => []
  | x :: xs =>
    match i with
    | 0 => f x :: xs
    | j + 1 => x :: updateAt j f xs

/-- Result of a mutation method: Python `True` on success, otherwise the
text of the caught exception (not modelled). -/
inductive PyResult where
  | success : PyResult
  | failure : PyResult
  deriving DecidableEq, Repr

/-- The pilot-side cell updates of `assign_pilot_to_mission` (lines 272-273). -/
def setPilotAssigned (prj : Str) (p : Pilot) : Pilot :=
  { p with current_assignment := prj, status := "Assigned".toList }

/-- `OpsAgent.assign_pilot_to_mission` (`src/app.py` lines 263-283).  The
pilot row is located by id and its `current_assignment` and `status` cells
are overwritten, then the mission row's `assigned_pilot` is written; no
precondition is checked anywhere.  A failed pilot lookup raises before any
write; a failed mission lookup raises after the pilot-side writes, leaving
the partial update in place. -/
def assign_pilot_to_mission (pilot_id project_id : Str)
    (pilots : List Pilot) (missions : List Mission) :
    PyResult × List Pilot × List Mission :=
  match pilots.findIdx? (fun p => p.pilot_id == pilot_id) with
  | none => (.failure, pilots, missions)
  | some i =>
    let pilots1 := updateAt i (setPilotAssigned project_id) pilots
    match missions.findIdx? (fun m => m.project_id == project_id) with
    | none => (.failure, pilots1, missions)
    | some j =>
      (.success, pilots1,
        updateAt j (fun m => { m with assigned_pilot := pilot_id }) missions)

/-- `OpsAgent.delete_pilot` (lines 372-379): locate the row by id and
delete it; a failed lookup raises and nothing is deleted. -/
def delete_pilot (pid : Str) (pilots : List Pilot) : PyResult × List Pilot :=
  match pilots.findIdx? (fun p => p.pilot_id == pid) with
  | none => (.failure, pilots)
  | some i => (.success, pilots.eraseIdx i)

/-- `OpsAgent.delete_drone` (lines 381-388). -/
def delete_drone (did : Str) (drones : List Drone) : PyResult × List Drone :=
  match drones.findIdx? (fun d => d.drone_id == did) with
  | none => (.failure, drones)
  | some i => (.success, drones.eraseIdx i)

/-- `OpsAgent.delete_mission` (lines 390-397). -/
def delete_mission (mid : Str) (missions : List Mission) : PyResult × List Mission :=
  match missions.findIdx? (fun m => m.project_id == mid) with
  | none => (.failure, missions)
  | some i => (.success, missions.eraseIdx i)

/-- The three record collections backing the agent. -/
structure Stores where
  pilots : List Pilot
  drones : List Drone
  missions : List Mission
  deriving DecidableEq, Repr

/-- The entity kinds stored in `temp_data['entity_type']`. -/
inductive EntityType where
  | pilot : EntityType
  | drone : EntityType
  | mission : EntityType
  deriving DecidableEq, Repr

/-- Dispatch of the confirmed delete on the stored entity type
(`src/app.py` lines 614-623). -/
def delete_entity (ty : EntityType) (eid : Str) (st : Stores) : PyResult × Stores :=
  match ty with
  | .pilot =>
    let r := delete_pilot eid st.pilots
    (r.1, { st with pilots := r.2 })
  | .drone =>
    let r := delete_drone eid st.drones
    (r.1, { st with drones := r.2 })
  | .mission =>
    let r := delete_mission eid st.missions
    (r.1, { st with missions := r.2 })

/-- The per-session dialogue context (`ConversationContext`), restricted to
the fields the modelled flows use. -/
structure Context where
  awaiting_response : Bool
  current_action : Option String
  temp_entity : Option (Str × EntityType)
  deriving DecidableEq, Repr

/-- `ConversationContext.clear` (lines 59-65). -/
def clearedContext : Context :=
  { awaiting_response := false, current_action := none, temp_entity := none }

/-- The confirmation test of the delete flow (line 614):
`'yes' in prompt.lower() or 'confirm' in prompt.lower()`. -/
def hasConfirmWord (prompt : Str) : Bool :=
  isSubstrOf ("yes".toList) (prompt.map lowerChar) ||
    isSubstrOf ("confirm".toList) (prompt.map lowerChar)

/-- The `awaiting_delete_confirmation` dialogue step (`src/app.py` lines
610-632): on a confirming reply the stored entity is deleted, on any other
reply nothing is touched, and the context is cleared on every path. -/
def delete_confirmation_step (eid : Str) (ty : EntityType) (prompt : Str)
    (st : Stores) : Stores × Context :=
  if hasConfirmWord prompt then ((delete_entity ty eid st).2, clearedContext)
  else (st, clearedContext)

/-- The `awaiting_pilot_selection` dialogue step (`src/app.py` lines
707-721): any entity id extracted from the reply is passed straight to
`assign_pilot_to_mission` with no status check; without an id the session
stays in the same state.  Returns the stores, the context, and the
assignment result (`none` when no assignment was attempted). -/
def pilot_selection_step (prompt : Str) (mission_id : Str)
    (pilots : List Pilot) (missions : List Mission) :
    List Pilot × List Mission × Context × Option PyResult :=
  match (parse_intent prompt).2.1 with
  | some pid =>
    let r := assign_pilot_to_mission pid mission_id pilots missions
    (r.2.1, r.2.2, clearedContext, some r.1)
  | none =>
    (pilots, missions,
      { awaiting_response := true, current_action := some "awaiting_pilot_selection",
        temp_entity := some (mission_id, EntityType.mission) }, none)

/-! ## Claim theorems -/

/-- Claim C10: for every pilot whose `current_assignment` is non-empty but
matches no mission id in the snapshot, `check_conflicts` reports no
conflict of any kind for that pilot — the dangling reference is silently
skipped, so the full conflict list is the same as if the pilot were absent. -/
theorem dangling_assignment_skipped (ps1 ps2 : List Pilot) (ds : List Drone)
    (ms : List Mission) (p : Pilot)
    (h1 : p.current_assignment ≠ [])
    (h2 : p.current_assignment ≠ noneSentinel)
    (hfind : ms.find? (fun m => m.project_id == p.current_assignment) = none) :
    pilotConflicts ms p = [] ∧
    check_conflicts (ps1 ++ p :: ps2) ds ms = check_conflicts (ps1 ++ ps2) ds ms := by
  have h0 : pilotConflicts ms p = [] := by
    unfold pilotConflicts
    rw [if_pos ⟨h1, h2⟩, hfind]
  refine ⟨h0, ?_⟩
  unfold check_conflicts
  rw [List.flatMap_append, List.flatMap_append, List.flatMap_cons, h0, List.nil_append]

/-- Witness for C10 at a concrete dangling snapshot. -/
theorem dangling_assignment_skipped_witness :
    pilotConflicts []
        (⟨"P009".toList, "Kiran".toList, "Pune".toList, "Mapping".toList,
          "Assigned".toList, "PRJ042".toList, "2024-01-01".toList⟩ : Pilot) = [] ∧
    check_conflicts
        ([] ++ (⟨"P009".toList, "Kiran".toList, "Pune".toList, "Mapping".toList,
          "Assigned".toList, "PRJ042".toList, "2024-01-01".toList⟩ : Pilot) :: []) [] [] =
      check_conflicts ([] ++ []) [] [] :=
  dangling_assignment_skipped [] [] [] []
    (⟨"P009".toList, "Kiran".toList, "Pune".toList, "Mapping".toList,
      "Assigned".toList, "PRJ042".toList, "2024-01-01".toList⟩ : Pilot)
    (by decide) (by decide) (by decide)

/-- Claim C1 counterexample: a pilot with a live assignment and status
`'Available'` for whom `check_conflicts` reports nothing at all — in
particular no Double-Booking conflict of severity Critical — because the
detector contains no double-booking check. -/
theorem doubleBooking_not_reported_cex :
    (let p : Pilot :=
      ⟨"P003".toList, "Asha".toList, "Mumbai".toList, "Mapping".toList,
        "Available".toList, "PRJ002".toList, "2024-01-01".toList⟩
    let m : Mission :=
      ⟨"PRJ002".toList, "Survey".toList, "Mumbai".toList, "Active".toList,
        "2024-02-01".toList, "2024-03-01".toList, "Mapping".toList,
        noneSentinel, noneSentinel⟩
    p.status = "Available".toList ∧ p.current_assignment ≠ [] ∧
      p.current_assignment ≠ noneSentinel ∧
      check_conflicts [p] [] [m] = []) := by
  decide

/-- Claim C1 amended: `check_conflicts` performs no double-booking check at
all — every conflict it can emit is one of the four implemented kinds and
carries severity `High` or `Medium`, never a Double-Booking conflict and
never severity `Critical`, whatever the snapshot. -/
theorem conflict_detector_severities (ps : List Pilot) (ds : List Drone)
    (ms : List Mission) (c : Conflict) (hc : c ∈ check_conflicts ps ds ms) :
    (c.type = "Pilot Date Overlap" ∨ c.type = "Skill Mismatch" ∨
      c.type = "Drone in Maintenance" ∨ c.type = "Drone Location Mismatch") ∧
    (c.severity = "High" ∨ c.severity = "Medium") := by
  rcases List.mem_append.1 hc with h | h
  · obtain ⟨p, -, hp⟩ := List.mem_flatMap.1 h
    unfold pilotConflicts at hp
    split at hp
    · split at hp
      · simp at hp
      · rcases List.mem_append.1 hp with h1 | h1 <;> split at h1 <;> simp_all
    · simp at hp
  · obtain ⟨d, -, hd⟩ := List.mem_flatMap.1 h
    unfold droneConflicts at hd
    split at hd
    · rcases List.mem_append.1 hd with h1 | h1
      · split at h1 <;> simp_all
      · split at h1
        · simp at h1
        · split at h1 <;> simp_all
    · simp at hd

/-- Witness for C1's amended theorem: a concrete snapshot in which the
detector emits a Skill Mismatch record, which indeed has one of the four
kinds and severity `Medium`. -/
theorem conflict_detector_severities_witness :
    ((⟨"Skill Mismatch", "Ravi".toList, "Medium"⟩ : Conflict) ∈
      check_conflicts
        [⟨"P007".toList, "Ravi".toList, "Mumbai".toList, "Survey".toList,
          "Assigned".toList, "PRJ003".toList, "2024-01-01".toList⟩] []
        [⟨"PRJ003".toList, "Towers".toList, "Mumbai".toList, "Active".toList,
          "2024-02-01".toList, "2024-03-01".toList, "Thermal".toList,
          noneSentinel, noneSentinel⟩]) ∧
    (((⟨"Skill Mismatch", "Ravi".toList, "Medium"⟩ : Conflict).type = "Pilot Date Overlap" ∨
      (⟨"Skill Mismatch", "Ravi".toList, "Medium"⟩ : Conflict).type = "Skill Mismatch" ∨
      (⟨"Skill Mismatch", "Ravi".toList, "Medium"⟩ : Conflict).type = "Drone in Maintenance" ∨
      (⟨"Skill Mismatch", "Ravi".toList, "Medium"⟩ : Conflict).type = "Drone Location Mismatch") ∧
    ((⟨"Skill Mismatch", "Ravi".toList, "Medium"⟩ : Conflict).severity = "High" ∨
      (⟨"Skill Mismatch", "Ravi".toList, "Medium"⟩ : Conflict).severity = "Medium")) :=
  ⟨by decide,
    conflict_detector_severities
      [⟨"P007".toList, "Ravi".toList, "Mumbai".toList, "Survey".toList,
        "Assigned".toList, "PRJ003".toList, "2024-01-01".toList⟩] []
      [⟨"PRJ003".toList, "Towers".toList, "Mumbai".toList, "Active".toList,
        "2024-02-01".toList, "2024-03-01".toList, "Thermal".toList,
        noneSentinel, noneSentinel⟩]
      (⟨"Skill Mismatch", "Ravi".toList, "Medium"⟩ : Conflict) (by decide)⟩

/-- Claim C6 counterexample: an assigned pilot whose location differs from
its mission's location, yet `check_conflicts` reports nothing — the
location-mismatch check exists only for drones. -/
theorem pilot_location_mismatch_unreported_cex :
    (let p : Pilot :=
      ⟨"P005".toList, "Meera".toList, "Delhi".toList, "Mapping".toList,
        "Assigned".toList, "PRJ004".toList, "2024-01-01".toList⟩
    let m : Mission :=
      ⟨"PRJ004".toList, "Bridges".toList, "Mumbai".toList, "Active".toList,
        "2024-02-01".toList, "2024-03-01".toList, "Mapping".toList,
        noneSentinel, noneSentinel⟩
    p.current_assignment = m.project_id ∧ p.location ≠ m.location ∧
      check_conflicts [p] [] [m] = []) := by
  decide

/-- Claim C6 amended: the location-mismatch rule is implemented for drones
only.  An assigned drone whose mission resolves and whose location differs
is reported with kind `Drone Location Mismatch` and severity `Medium`,
while a pilot row can only ever contribute `Pilot Date Overlap` or
`Skill Mismatch` conflicts — never a location mismatch. -/
theorem location_mismatch_drones_only (ps : List Pilot) (ds1 ds2 : List Drone)
    (ms : List Mission) (d : Drone) (m : Mission)
    (h1 : d.current_assignment ≠ [])
    (h2 : d.current_assignment ≠ noneSentinel)
    (hm : ms.find? (fun mm => mm.project_id == d.current_assignment) = some m)
    (hl : d.location ≠ m.location) :
    ({ type := "Drone Location Mismatch", entity := d.drone_id,
        severity := "Medium" } : Conflict) ∈ check_conflicts ps (ds1 ++ d :: ds2) ms
    ∧ ∀ (p : Pilot) (c : Conflict), c ∈ pilotConflicts ms p →
        c.type = "Pilot Date Overlap" ∨ c.type = "Skill Mismatch" := by
  constructor
  · unfold check_conflicts
    refine List.mem_append.2 (Or.inr ?_)
    rw [List.flatMap_append, List.flatMap_cons]
    refine List.mem_append.2 (Or.inr (List.mem_append.2 (Or.inl ?_)))
    unfold droneConflicts
    rw [if_pos ⟨h1, h2⟩, hm]
    refine List.mem_append.2 (Or.inr ?_)
    change _ ∈ (if d.location ≠ m.location then
      [({ type := "Drone Location Mismatch", entity := d.drone_id,
          severity := "Medium" } : Conflict)] else [])
    rw [if_pos hl]
    exact List.mem_singleton.2 rfl
  · intro p c hc
    unfold pilotConflicts at hc
    split at hc
    · split at hc
      · simp at hc
      · rcases List.mem_append.1 hc with h3 | h3 <;> split at h3 <;> simp_all
    · simp at hc

/-- Witness for C6's amended theorem at a concrete mismatched drone. -/
theorem location_mismatch_drones_only_witness :
    (({ type := "Drone Location Mismatch", entity := "D002".toList,
        severity := "Medium" } : Conflict) ∈
      check_conflicts []
        ([] ++ (⟨"D002".toList, "DJI Mavic".toList, "Pune".toList, "Assigned".toList,
          "PRJ008".toList, "120".toList, "2024-01-01".toList⟩ : Drone) :: [])
        [⟨"PRJ008".toList, "Dams".toList, "Goa".toList, "Active".toList,
          "2024-02-01".toList, "2024-03-01".toList, "Mapping".toList,
          noneSentinel, noneSentinel⟩])
    ∧ ∀ (p : Pilot) (c : Conflict),
        c ∈ pilotConflicts
          [⟨"PRJ008".toList, "Dams".toList, "Goa".toList, "Active".toList,
            "2024-02-01".toList, "2024-03-01".toList, "Mapping".toList,
            noneSentinel, noneSentinel⟩] p →
        c.type = "Pilot Date Overlap" ∨ c.type = "Skill Mismatch" :=
  location_mismatch_drones_only [] [] []
    [⟨"PRJ008".toList, "Dams".toList, "Goa".toList, "Active".toList,
      "2024-02-01".toList, "2024-03-01".toList, "Mapping".toList,
      noneSentinel, noneSentinel⟩]
    (⟨"D002".toList, "DJI Mavic".toList, "Pune".toList, "Assigned".toList,
      "PRJ008".toList, "120".toList, "2024-01-01".toList⟩ : Drone)
    (⟨"PRJ008".toList, "Dams".toList, "Goa".toList, "Active".toList,
      "2024-02-01".toList, "2024-03-01".toList, "Mapping".toList,
      noneSentinel, noneSentinel⟩ : Mission)
    (by decide) (by decide) (by decide) (by decide)

/-- Membership through `insertDescBy`. -/
theorem mem_insertDescBy {α : Type} (key : α → Nat) (x y : α) (l : List α) :
    y ∈ insertDescBy key x l ↔ y = x ∨ y ∈ l := by
  induction l with
  | nil => simp [insertDescBy]
  | cons z zs ih =>
    unfold insertDescBy
    split
    · simp [List.mem_cons]
    · simp only [List.mem_cons, ih]
      tauto

/-- Membership through `sortDescBy`. -/
theorem mem_sortDescBy {α : Type} (key : α → Nat) (l : List α) (y : α) :
    y ∈ sortDescBy key l ↔ y ∈ l := by
  induction l with
  | nil => simp [sortDescBy]
  | cons x xs ih =>
    unfold sortDescBy
    rw [mem_insertDescBy]
    simp [ih]

/-- Fixture pilot used by ranker witnesses. -/
def wpilot1 : Pilot :=
  ⟨"P001".toList, "Asha".toList, "Mumbai".toList, "Mapping".toList,
    "Available".toList, noneSentinel, "2024-01-01".toList⟩

/-- Fixture mission used by ranker witnesses. -/
def wmission : Mission :=
  ⟨"PRJ001".toList, "Pipeline".toList, "Mumbai".toList, "Active".toList,
    "2024-02-01".toList, "2024-03-01".toList, "Mapping".toList,
    noneSentinel, noneSentinel⟩

/-- Claim C3: every candidate returned by `recommend_replacement` has
status `'Available'` and the mission's location — the filter of lines
146-149 is never escaped by the scoring and sorting stages. -/
theorem ranker_filter_sound (pilots : List Pilot) (missions : List Mission)
    (pid : Str) (m : Mission)
    (hm : missions.find? (fun mm => mm.project_id == normalizeProjectId pid) = some m) :
    ∀ x ∈ recommend_replacement pilots missions pid,
      x.1.status = "Available".toList ∧ x.1.location = m.location := by
  intro x hx
  have heq : recommend_replacement pilots missions pid =
      (if (eligible pilots m).isEmpty then []
       else (rankCandidates m (eligible pilots m)).map (fun y => y.2)) := by
    simp only [recommend_replacement, hm]
  rw [heq] at hx
  by_cases he : (eligible pilots m).isEmpty
  · rw [if_pos he] at hx; simp at hx
  · rw [if_neg he] at hx
    obtain ⟨t, ht, rfl⟩ := List.mem_map.1 hx
    unfold rankCandidates at ht
    have ht2 := (mem_sortDescBy _ _ t).1 ht
    have hg : ((eligible pilots m).map (fun p => (p, scoreOf m p)))[t.1]? = some t.2 :=
      List.mem_enum_iff_getElem?.1 ht2
    rw [List.getElem?_map] at hg
    cases hp : (eligible pilots m)[t.1]? with
    | none => rw [hp] at hg; simp at hg
    | some p =>
      rw [hp] at hg
      simp only [Option.map_some', Option.some.injEq] at hg
      have hpm : p ∈ eligible pilots m := List.getElem?_mem hp
      have hcond := (List.mem_filter.1 hpm).2
      simp only [Bool.and_eq_true, beq_iff_eq] at hcond
      have h1 : t.2.1 = p := by rw [← hg]
      rw [h1]
      exact hcond

/-- Witness for C3: a concrete roster in which the single returned
candidate is indeed Available and co-located with the mission. -/
theorem ranker_filter_sound_witness :
    ([wmission].find?
        (fun mm => mm.project_id == normalizeProjectId ("PRJ001".toList)) = some wmission)
    ∧ ((wpilot1, 1) ∈ recommend_replacement [wpilot1] [wmission] ("PRJ001".toList))
    ∧ ((wpilot1, (1 : Nat)).1.status = "Available".toList ∧
        (wpilot1, (1 : Nat)).1.location = wmission.location) :=
  ⟨by decide, by decide,
    ranker_filter_sound [wpilot1] [wmission] ("PRJ001".toList) wmission (by decide)
      (wpilot1, 1) (by decide)⟩

/-- Claim C5 counterexample: the two Ranker failure modes produce the very
same empty value.  With no matching mission (`find?` is `none`) and with a
matching mission but an empty filtered set, `recommend_replacement`
returns one and the same `[]`, so the caller cannot tell them apart. -/
theorem ranker_failures_indistinguishable_cex :
    (let pleave : Pilot :=
      ⟨"P004".toList, "Dev".toList, "Mumbai".toList, "Mapping".toList,
        "On Leave".toList, noneSentinel, "2024-05-01".toList⟩
    (([] : List Mission).find?
        (fun mm => mm.project_id == normalizeProjectId ("PRJ001".toList)) = none)
    ∧ ([wmission].find?
        (fun mm => mm.project_id == normalizeProjectId ("PRJ001".toList)) = some wmission)
    ∧ eligible [pleave] wmission = []
    ∧ recommend_replacement [pleave] [] ("PRJ001".toList) =
        recommend_replacement [pleave] [wmission] ("PRJ001".toList)
    ∧ recommend_replacement [pleave] [wmission] ("PRJ001".toList) = []) := by
  decide

/-- Claim C5 amended: both failure modes exist but are reported
identically — an unresolved mission id and an empty eligible set each
yield the same bare empty result, with nothing distinguishing them. -/
theorem ranker_failure_empty (pilots : List Pilot) (missions : List Mission)
    (pid : Str) :
    (missions.find? (fun mm => mm.project_id == normalizeProjectId pid) = none →
      recommend_replacement pilots missions pid = [])
    ∧ ∀ m, missions.find? (fun mm => mm.project_id == normalizeProjectId pid) = some m →
        eligible pilots m = [] → recommend_replacement pilots missions pid = [] := by
  constructor
  · intro h
    simp only [recommend_replacement, h]
  · intro m hm he
    simp only [recommend_replacement, hm, he]
    simp

/-- Witness for C5's amended theorem: the mission-not-found mode at a
concrete snapshot. -/
theorem ranker_failure_empty_witness :
    (([] : List Mission).find?
        (fun mm => mm.project_id == normalizeProjectId ("PRJ009".toList)) = none)
    ∧ recommend_replacement [wpilot1] [] ("PRJ009".toList) = [] :=
  ⟨by decide, (ranker_failure_empty [wpilot1] [] ("PRJ009".toList)).1 (by decide)⟩

/-- Claim C2 counterexample: assigning pilot `P004`, whose status is
`'On Leave'`, succeeds and writes both rows — there is no precondition
check and no rejection. -/
theorem assign_onleave_writes_cex :
    (let p : Pilot :=
      ⟨"P004".toList, "Dev".toList, "Delhi".toList, "Mapping".toList,
        "On Leave".toList, noneSentinel, "2024-05-01".toList⟩
    let m : Mission :=
      ⟨"PRJ001".toList, "Pipeline".toList, "Delhi".toList, "Active".toList,
        "2024-02-01".toList, "2024-03-01".toList, "Mapping".toList,
        noneSentinel, noneSentinel⟩
    p.status = "On Leave".toList
    ∧ assign_pilot_to_mission ("P004".toList) ("PRJ001".toList) [p] [m] =
        (PyResult.success,
          [⟨"P004".toList, "Dev".toList, "Delhi".toList, "Mapping".toList,
            "Assigned".toList, "PRJ001".toList, "2024-05-01".toList⟩],
          [⟨"PRJ001".toList, "Pipeline".toList, "Delhi".toList, "Active".toList,
            "2024-02-01".toList, "2024-03-01".toList, "Mapping".toList,
            "P004".toList, noneSentinel⟩])
    ∧ ([⟨"P004".toList, "Dev".toList, "Delhi".toList, "Mapping".toList,
          "Assigned".toList, "PRJ001".toList, "2024-05-01".toList⟩] : List Pilot) ≠ [p]
    ∧ (pilot_selection_step ("P004".toList) ("PRJ001".toList) [p] [m]).2.2.2 =
        some PyResult.success
    ∧ (pilot_selection_step ("P004".toList) ("PRJ001".toList) [p] [m]).1 ≠ [p]) := by
  decide

/-- Claim C2 amended: `assign_pilot_to_mission` re-checks nothing — for any
pilot row it finds, whatever its status, it overwrites the pilot's
`current_assignment` and `status` and the mission's `assigned_pilot`, and
reports success. -/
theorem assign_no_precondition_check (pilot_id project_id : Str)
    (ps : List Pilot) (ms : List Mission) (i j : Nat)
    (hi : ps.findIdx? (fun p => p.pilot_id == pilot_id) = some i)
    (hj : ms.findIdx? (fun m => m.project_id == project_id) = some j) :
    assign_pilot_to_mission pilot_id project_id ps ms =
      (PyResult.success, updateAt i (setPilotAssigned project_id) ps,
        updateAt j (fun m => { m with assigned_pilot := pilot_id }) ms) := by
  unfold assign_pilot_to_mission
  rw [hi, hj]

/-- Witness for C2's amended theorem: the concrete On-Leave assignment goes
through and rewrites both sheets. -/
theorem assign_no_precondition_check_witness :
    (([⟨"P004".toList, "Dev".toList, "Delhi".toList, "Mapping".toList,
        "On Leave".toList, noneSentinel, "2024-05-01".toList⟩] : List Pilot).findIdx?
      (fun p => p.pilot_id == ("P004".toList)) = some 0)
    ∧ (([⟨"PRJ001".toList, "Pipeline".toList, "Delhi".toList, "Active".toList,
        "2024-02-01".toList, "2024-03-01".toList, "Mapping".toList,
        noneSentinel, noneSentinel⟩] : List Mission).findIdx?
      (fun m => m.project_id == ("PRJ001".toList)) = some 0)
    ∧ assign_pilot_to_mission ("P004".toList) ("PRJ001".toList)
        [⟨"P004".toList, "Dev".toList, "Delhi".toList, "Mapping".toList,
          "On Leave".toList, noneSentinel, "2024-05-01".toList⟩]
        [⟨"PRJ001".toList, "Pipeline".toList, "Delhi".toList, "Active".toList,
          "2024-02-01".toList, "2024-03-01".toList, "Mapping".toList,
          noneSentinel, noneSentinel⟩] =
      (PyResult.success,
        updateAt 0 (setPilotAssigned ("PRJ001".toList))
          [⟨"P004".toList, "Dev".toList, "Delhi".toList, "Mapping".toList,
            "On Leave".toList, noneSentinel, "2024-05-01".toList⟩],
        updateAt 0 (fun m => { m with assigned_pilot := ("P004".toList) })
          [⟨"PRJ001".toList, "Pipeline".toList, "Delhi".toList, "Active".toList,
            "2024-02-01".toList, "2024-03-01".toList, "Mapping".toList,
            noneSentinel, noneSentinel⟩]) :=
  ⟨by decide, by decide,
    assign_no_precondition_check ("P004".toList) ("PRJ001".toList)
      [⟨"P004".toList, "Dev".toList, "Delhi".toList, "Mapping".toList,
        "On Leave".toList, noneSentinel, "2024-05-01".toList⟩]
      [⟨"PRJ001".toList, "Pipeline".toList, "Delhi".toList, "Active".toList,
        "2024-02-01".toList, "2024-03-01".toList, "Mapping".toList,
        noneSentinel, noneSentinel⟩] 0 0 (by decide) (by decide)⟩

/-- Claim C9 counterexample: in the delete-confirmation state the reply
`'eyes'` — which is neither `'yes'` nor `'confirm'` — still triggers the
deletion, because the code tests substring containment. -/
theorem delete_confirmation_substring_cex :
    (let p : Pilot :=
      ⟨"P001".toList, "Asha".toList, "Mumbai".toList, "Mapping".toList,
        "Available".toList, noneSentinel, "2024-01-01".toList⟩
    hasConfirmWord ("eyes".toList) = true
    ∧ "eyes".toList ≠ "yes".toList
    ∧ "eyes".toList ≠ "confirm".toList
    ∧ (delete_confirmation_step ("P001".toList) EntityType.pilot ("eyes".toList)
        ⟨[p], [], []⟩).1.pilots = []) := by
  decide

/-- Claim C9 amended: in the delete-confirmation state, a reply whose
lower-cased text contains `'yes'` or `'confirm'` triggers the stored
deletion and any reply containing neither leaves the stores untouched;
the dialogue context is cleared on every path. -/
theorem delete_confirmation_clears_state (eid : Str) (ty : EntityType)
    (prompt : Str) (st : Stores) :
    (delete_confirmation_step eid ty prompt st).2 = clearedContext
    ∧ (hasConfirmWord prompt = true →
        (delete_confirmation_step eid ty prompt st).1 = (delete_entity ty eid st).2)
    ∧ (hasConfirmWord prompt = false →
        (delete_confirmation_step eid ty prompt st).1 = st) := by
  unfold delete_confirmation_step
  by_cases h : hasConfirmWord prompt <;> simp [h]

/-- Witness for C9's amended theorem: a literal `'yes'` deletes the stored
pilot and clears the context. -/
theorem delete_confirmation_clears_state_witness :
    ((delete_confirmation_step ("P001".toList) EntityType.pilot ("yes".toList)
        ⟨[⟨"P001".toList, "Asha".toList, "Mumbai".toList, "Mapping".toList,
          "Available".toList, noneSentinel, "2024-01-01".toList⟩], [], []⟩).2 =
      clearedContext)
    ∧ hasConfirmWord ("yes".toList) = true
    ∧ (delete_confirmation_step ("P001".toList) EntityType.pilot ("yes".toList)
        ⟨[⟨"P001".toList, "Asha".toList, "Mumbai".toList, "Mapping".toList,
          "Available".toList, noneSentinel, "2024-01-01".toList⟩], [], []⟩).1 =
      (delete_entity EntityType.pilot ("P001".toList)
        ⟨[⟨"P001".toList, "Asha".toList, "Mumbai".toList, "Mapping".toList,
          "Available".toList, noneSentinel, "2024-01-01".toList⟩], [], []⟩).2 :=
  ⟨(delete_confirmation_clears_state ("P001".toList) EntityType.pilot ("yes".toList)
      ⟨[⟨"P001".toList, "Asha".toList, "Mumbai".toList, "Mapping".toList,
        "Available".toList, noneSentinel, "2024-01-01".toList⟩], [], []⟩).1,
    by decide,
    (delete_confirmation_clears_state ("P001".toList) EntityType.pilot ("yes".toList)
      ⟨[⟨"P001".toList, "Asha".toList, "Mumbai".toList, "Mapping".toList,
        "Available".toList, noneSentinel, "2024-01-01".toList⟩], [], []⟩).2.1
      (by decide)⟩

/-- `natToCharsAux` at zero yields no digits, whatever the fuel. -/
theorem natToCharsAux_zero (fuel : Nat) : natToCharsAux fuel 0 = [] := by
  cases fuel <;> rfl

/-- Decimal digits render to ASCII digit characters. -/
theorem digitChar_isDigit (m : Nat) (h : m < 10) :
    isDigitChar (Nat.digitChar m) = true := by
  interval_cases m <;> decide

/-- Rendering then reading a decimal digit is the identity. -/
theorem digitVal_digitChar (m : Nat) (h : m < 10) :
    digitVal (Nat.digitChar m) = m := by
  interval_cases m <;> decide

/-- Every character produced by `natToCharsAux` is a digit. -/
theorem natToCharsAux_all_digits (fuel : Nat) :
    ∀ n, n ≤ fuel → (natToCharsAux fuel n).all isDigitChar = true := by
  induction fuel with
  | zero => intro n _; rfl
  | succ fuel ih =>
    intro n hn
    match n with
    | 0 => rfl
    | k + 1 =>
      unfold natToCharsAux
      rw [List.all_append, Bool.and_eq_true]
      constructor
      · refine ih ((k + 1) / 10) ?_
        have h1 : (k + 1) / 10 < k + 1 := Nat.div_lt_self (by omega) (by omega)
        omega
      · simp [List.all_cons, digitChar_isDigit ((k + 1) % 10) (Nat.mod_lt _ (by omega))]

/-- Value computed by the digit fold over the characters of `natToCharsAux`. -/
theorem natToCharsAux_val (fuel : Nat) :
    ∀ n, 0 < n → n ≤ fuel →
      (natToCharsAux fuel n).foldl (fun a c => 10 * a + digitVal c) 0 = n := by
  induction fuel with
  | zero => intro n h1 h2; omega
  | succ fuel ih =>
    intro n h1 h2
    match n, h1 with
    | k + 1, _ =>
      unfold natToCharsAux
      rw [List.foldl_append]
      by_cases hk : (k + 1) / 10 = 0
      · rw [hk, natToCharsAux_zero]
        simp only [List.foldl_cons, List.foldl_nil]
        rw [digitVal_digitChar ((k + 1) % 10) (Nat.mod_lt _ (by omega))]
        omega
      · have hle : (k + 1) / 10 ≤ fuel := by
          have h3 : (k + 1) / 10 < k + 1 := Nat.div_lt_self (by omega) (by omega)
          omega
        rw [ih ((k + 1) / 10) (by omega) hle]
        simp only [List.foldl_cons, List.foldl_nil]
        rw [digitVal_digitChar ((k + 1) % 10) (Nat.mod_lt _ (by omega))]
        omega

/-- `natToCharsAux` of a positive number is non-empty. -/
theorem natToCharsAux_ne_nil (fuel n : Nat) (h1 : 0 < n) (h2 : n ≤ fuel) :
    natToCharsAux fuel n ≠ [] := by
  match fuel, n with
  | 0, k => omega
  | fuel + 1, 0 => omega
  | fuel + 1, k + 1 =>
    unfold natToCharsAux
    exact List.append_ne_nil_of_right_ne_nil _ (by simp)

/-- Reading back `str(n)` recovers `n`. -/
theorem parseNat?_natToChars (n : Nat) : parseNat? (natToChars n) = some n := by
  match n with
  | 0 => decide
  | k + 1 =>
    have hnc : natToChars (k + 1) = natToCharsAux (k + 1) (k + 1) := by
      unfold natToChars
      rw [if_neg (by omega)]
    rw [hnc]
    unfold parseNat?
    rw [if_pos ⟨natToCharsAux_ne_nil (k + 1) (k + 1) (by omega) (le_refl _),
      natToCharsAux_all_digits (k + 1) (k + 1) (le_refl _)⟩]
    rw [natToCharsAux_val (k + 1) (k + 1) (by omega) (le_refl _)]

/-- The digit fold ignores leading zero characters. -/
theorem foldl_digit_replicate_zero (k : Nat) :
    (List.replicate k '0').foldl (fun a c => 10 * a + digitVal c) 0 = 0 := by
  induction k with
  | zero => rfl
  | succ k ih => simpa [List.replicate_succ] using ih

/-- Zero-filling does not change the parsed value. -/
theorem parseNat?_zfill (w : Nat) (s : Str) (v : Nat)
    (h : parseNat? s = some v) : parseNat? (zfill w s) = some v := by
  unfold parseNat? at h
  by_cases hc : s ≠ [] ∧ s.all isDigitChar
  · rw [if_pos hc] at h
    have hcond : zfill w s ≠ [] ∧ (zfill w s).all isDigitChar = true := by
      unfold zfill
      constructor
      · intro hnil
        exact hc.1 (List.append_eq_nil.1 hnil).2
      · rw [List.all_append, Bool.and_eq_true]
        have h0 : isDigitChar '0' = true := by decide
        exact ⟨by simp [h0], hc.2⟩
    unfold parseNat?
    rw [if_pos hcond]
    unfold zfill
    rw [List.foldl_append, foldl_digit_replicate_zero]
    exact h
  · rw [if_neg hc] at h
    exact absurd h (by simp)

/-- Every member of a list is bounded by the running `Nat.max` fold. -/
theorem mem_le_foldl_max (l : List Nat) :
    ∀ i : Nat, (∀ v ∈ l, v ≤ l.foldl Nat.max i) ∧ i ≤ l.foldl Nat.max i := by
  induction l with
  | nil => intro i; exact ⟨by simp, le_refl i⟩
  | cons x xs ih =>
    intro i
    have h1 := ih (Nat.max i x)
    constructor
    · intro v hv
      rcases List.mem_cons.1 hv with rfl | hv2
      · exact le_trans (Nat.le_max_right i v) h1.2
      · exact h1.1 v hv2
    · exact le_trans (Nat.le_max_left i x) h1.2

/-- `mapM` over `Option` succeeds on a list of parsable strings and
records each parse in a pointwise relation. -/
theorem mapM_parseNat_forall (l : List Str)
    (h : ∀ s ∈ l, (parseNat? s).isSome = true) :
    ∃ vs, l.mapM parseNat? = some vs ∧
      List.Forall₂ (fun s v => parseNat? s = some v) l vs := by
  induction l with
  | nil => exact ⟨[], rfl, List.Forall₂.nil⟩
  | cons x xs ih =>
    obtain ⟨vs, hvs, hrel⟩ := ih (fun s hs => h s (List.mem_cons_of_mem x hs))
    obtain ⟨v, hv⟩ := Option.isSome_iff_exists.1 (h x (List.mem_cons_self x xs))
    refine ⟨v :: vs, ?_, List.Forall₂.cons hv hrel⟩
    rw [List.mapM_cons, hv, hvs]
    rfl

/-- Pointwise relations expose a partner for every left member. -/
theorem forall₂_exists_right {α β : Type} {R : α → β → Prop}
    {l : List α} {l' : List β} (h : List.Forall₂ R l l') :
    ∀ x ∈ l, ∃ y ∈ l', R x y := by
  induction h with
  | nil => intro x hx; exact absurd hx (List.not_mem_nil x)
  | cons hr _ ih =>
    intro x hx
    rcases List.mem_cons.1 hx with rfl | hx2
    · exact ⟨_, List.mem_cons_self _ _, hr⟩
    · obtain ⟨y, hy, hxy⟩ := ih x hx2
      exact ⟨y, List.mem_cons_of_mem _ hy, hxy⟩

/-- When every id starts with `'P'`, the id-tail extraction of
`next_pilot_id` keeps every element. -/
theorem filterMap_tails_eq_map (ids : List Str)
    (h : ∀ s ∈ ids, ("P".toList).isPrefixOf s = true) :
    ids.filterMap
        (fun s => if ("P".toList).isPrefixOf s then some (s.drop 1) else none) =
      ids.map (fun s => s.drop 1) := by
  induction ids with
  | nil => rfl
  | cons x xs ih =>
    rw [List.filterMap_cons, List.map_cons]
    rw [if_pos (h x (List.mem_cons_self x xs))]
    rw [ih (fun s hs => h s (List.mem_cons_of_mem x hs))]

/-- Claim C7: creating a pilot through the create flow and reading back the
returned id yields exactly the submitted fields plus default status
`'Available'` and the sentinel assignment.  The roster is assumed
well-formed — every id starts with `'P'` followed by digits, which is what
`add_pilot`'s id arithmetic itself requires in order not to raise — and
`nid` names the id the engine allocates. -/
theorem create_read_roundtrip (pilots : List Pilot) (prompt n l sk av nid : Str)
    (hwf : ∀ p ∈ pilots, ("P".toList).isPrefixOf p.pilot_id = true ∧
      (parseNat? (p.pilot_id.drop 1)).isSome = true)
    (hparts : (splitComma prompt).map strip = [n, l, sk, av])
    (hnid : next_pilot_id pilots = some nid) :
    pilot_create_details_step prompt pilots =
      (pilots ++ [⟨nid, n, l, sk, "Available".toList, noneSentinel, av⟩], some nid)
    ∧ get_pilot_info (pilots ++ [⟨nid, n, l, sk, "Available".toList, noneSentinel, av⟩]) nid =
        some ⟨nid, n, l, sk, "Available".toList, noneSentinel, av⟩ := by
  by_cases hemp : pilots = []
  · subst hemp
    have : ("P001".toList : Str) = nid := by
      have h0 : next_pilot_id [] = some ("P001".toList) := rfl
      rw [h0] at hnid
      injection hnid
    subst this
    constructor
    · simp [pilot_create_details_step, hparts, add_pilot, next_pilot_id]
    · unfold get_pilot_info
      rw [List.nil_append, List.find?_cons_of_pos _ (by simp)]
  · have hpre : ∀ s ∈ pilots.map (fun p => p.pilot_id),
        ("P".toList).isPrefixOf s = true := by
      intro s hs
      obtain ⟨p, hp, rfl⟩ := List.mem_map.1 hs
      exact (hwf p hp).1
    have htails_eq : (pilots.map (fun p => p.pilot_id)).filterMap
        (fun s => if ("P".toList).isPrefixOf s then some (s.drop 1) else none) =
        (pilots.map (fun p => p.pilot_id)).map (fun s => s.drop 1) :=
      filterMap_tails_eq_map _ hpre
    have hparse : ∀ s ∈ (pilots.map (fun p => p.pilot_id)).map (fun s => s.drop 1),
        (parseNat? s).isSome = true := by
      intro s hs
      obtain ⟨t, ht, rfl⟩ := List.mem_map.1 hs
      obtain ⟨p, hp, rfl⟩ := List.mem_map.1 ht
      exact (hwf p hp).2
    obtain ⟨vs, hvs, hrel⟩ := mapM_parseNat_forall _ hparse
    cases vs with
    | nil =>
      exfalso
      have : (pilots.map (fun p => p.pilot_id)).map (fun s => s.drop 1) = [] :=
        List.forall₂_nil_right_iff.1 hrel
      simp only [List.map_eq_nil_iff] at this
      exact hemp this
    | cons v0 vrest =>
      have hnext : next_pilot_id pilots =
          some ('P' :: zfill 3 (natToChars ((v0 :: vrest).foldl Nat.max 0 + 1))) := by
        unfold next_pilot_id
        rw [if_neg (by simpa using hemp)]
        simp only [htails_eq, hvs]
      have hnid2 : ('P' :: zfill 3 (natToChars ((v0 :: vrest).foldl Nat.max 0 + 1)) : Str)
          = nid := by
        rw [hnext] at hnid
        injection hnid
      subst hnid2
      have hfresh : ∀ p ∈ pilots,
          p.pilot_id ≠ 'P' :: zfill 3 (natToChars ((v0 :: vrest).foldl Nat.max 0 + 1)) := by
        intro p hp heq
        have hmem : p.pilot_id.drop 1 ∈
            (pilots.map (fun q => q.pilot_id)).map (fun s => s.drop 1) :=
          List.mem_map_of_mem _ (List.mem_map_of_mem _ hp)
        obtain ⟨v, hvmem, hvp⟩ := forall₂_exists_right hrel _ hmem
        have hdrop : p.pilot_id.drop 1 =
            zfill 3 (natToChars ((v0 :: vrest).foldl Nat.max 0 + 1)) := by
          rw [heq]
          rfl
        rw [hdrop,
          parseNat?_zfill 3 _ _ (parseNat?_natToChars ((v0 :: vrest).foldl Nat.max 0 + 1))]
          at hvp
        injection hvp with hv
        have hle : v ≤ (v0 :: vrest).foldl Nat.max 0 :=
          (mem_le_foldl_max (v0 :: vrest) 0).1 v hvmem
        omega
      constructor
      · simp only [pilot_create_details_step, hparts]
        rw [if_pos (by simp)]
        simp only [List.getD_cons_zero, List.getD_cons_succ]
        unfold add_pilot
        rw [hnext]
        simp [List.isPrefixOf]
      · unfold get_pilot_info
        rw [List.find?_append]
        have h1 : pilots.find?
            (fun p => p.pilot_id ==
              'P' :: zfill 3 (natToChars ((v0 :: vrest).foldl Nat.max 0 + 1))) = none :=
          List.find?_eq_none.2 (fun p hp => by simpa using hfresh p hp)
        rw [h1]
        simp [List.find?]

/-- Witness for C7: one concrete create-then-read round trip on a roster
holding `P001`, allocating `P002`. -/
theorem create_read_roundtrip_witness :
    pilot_create_details_step ("Jane Roe, Pune, Mapping, 2024-03-01".toList) [wpilot1] =
      ([wpilot1] ++ [⟨"P002".toList, "Jane Roe".toList, "Pune".toList, "Mapping".toList,
        "Available".toList, noneSentinel, "2024-03-01".toList⟩], some ("P002".toList))
    ∧ get_pilot_info
        ([wpilot1] ++ [⟨"P002".toList, "Jane Roe".toList, "Pune".toList, "Mapping".toList,
          "Available".toList, noneSentinel, "2024-03-01".toList⟩]) ("P002".toList) =
      some ⟨"P002".toList, "Jane Roe".toList, "Pune".toList, "Mapping".toList,
        "Available".toList, noneSentinel, "2024-03-01".toList⟩ :=
  create_read_roundtrip [wpilot1] ("Jane Roe, Pune, Mapping, 2024-03-01".toList)
    ("Jane Roe".toList) ("Pune".toList) ("Mapping".toList) ("2024-03-01".toList)
    ("P002".toList) (by decide) (by decide) (by decide)

/-- One character of a casing variant: the character itself or its ASCII
lower- or upper-cased form. -/
abbrev charVariant (c d : Char) : Prop :=
  c = d ∨ c = lowerChar d ∨ c = upperChar d

/-- `s` is a casing variant of `t`: same characters up to ASCII case. -/
def casingVariantOf (s t : Str) : Prop :=
  List.Forall₂ charVariant s t

/-- Claim C8 counterexample: `'delete P001!'` differs from `'Delete P001'`
only in punctuation, yet the extractor returns entity id `'P001!'` — the
exclamation mark is not stripped (only `'?'` and `'.'` are), so the claim
fails for general punctuation variants. -/
theorem extractor_punctuation_cex :
    (parse_intent ("delete P001!".toList)).1 = some "delete"
    ∧ (parse_intent ("delete P001!".toList)).2.1 = some ("P001!".toList)
    ∧ (parse_intent ("delete P001!".toList)).2.1 ≠ some ("P001".toList) := by
  decide

/-- Claim C8 amended: for every casing variant of `'Delete P001'` with an
optional trailing `'?'` or `'.'` — the punctuation `parse_intent` itself
strips — the extractor returns intent `delete`, entity id `P001` and
entity type `pilot`.  (In the embedding the extractor is a function, so
determinism and freedom from mutation are inherent.) -/
theorem extractor_delete_variants (s p : Str)
    (hs : casingVariantOf s ("Delete P001".toList))
    (hp : p = [] ∨ p = "?".toList ∨ p = ".".toList) :
    (parse_intent (s ++ p)).1 = some "delete"
    ∧ (parse_intent (s ++ p)).2.1 = some ("P001".toList)
    ∧ (parse_intent (s ++ p)).2.2.1 = some "pilot" := by
  unfold casingVariantOf at hs
  rw [show ("Delete P001".toList) =
    'D' :: 'e' :: 'l' :: 'e' :: 't' :: 'e' :: ' ' :: 'P' :: '0' :: '0' :: '1' :: []
    from rfl] at hs
  obtain ⟨c1, s1, h1, hs1, rfl⟩ := List.forall₂_cons_right_iff.1 hs
  obtain ⟨c2, s2, h2, hs2, rfl⟩ := List.forall₂_cons_right_iff.1 hs1
  obtain ⟨c3, s3, h3, hs3, rfl⟩ := List.forall₂_cons_right_iff.1 hs2
  obtain ⟨c4, s4, h4, hs4, rfl⟩ := List.forall₂_cons_right_iff.1 hs3
  obtain ⟨c5, s5, h5, hs5, rfl⟩ := List.forall₂_cons_right_iff.1 hs4
  obtain ⟨c6, s6, h6, hs6, rfl⟩ := List.forall₂_cons_right_iff.1 hs5
  obtain ⟨c7, s7, h7, hs7, rfl⟩ := List.forall₂_cons_right_iff.1 hs6
  obtain ⟨c8, s8, h8, hs8, rfl⟩ := List.forall₂_cons_right_iff.1 hs7
  obtain ⟨c9, s9, h9, hs9, rfl⟩ := List.forall₂_cons_right_iff.1 hs8
  obtain ⟨c10, s10, h10, hs10, rfl⟩ := List.forall₂_cons_right_iff.1 hs9
  obtain ⟨c11, s11, h11, hs11, rfl⟩ := List.forall₂_cons_right_iff.1 hs10
  have hnil : s11 = [] := by
    cases hs11
    rfl
  subst hnil
  have e7 : c7 = ' ' := by rcases h7 with rfl | rfl | rfl <;> decide
  have e9 : c9 = '0' := by rcases h9 with rfl | rfl | rfl <;> decide
  have e10 : c10 = '0' := by rcases h10 with rfl | rfl | rfl <;> decide
  have e11 : c11 = '1' := by rcases h11 with rfl | rfl | rfl <;> decide
  subst e7
  subst e9
  subst e10
  subst e11
  have f1 : lowerChar c1 = 'd' ∧ upperChar c1 = 'D' ∧ isWsChar c1 = false ∧
      (¬ c1 = '?' ∧ ¬ c1 = '.') := by
    rcases h1 with rfl | rfl | rfl <;> exact ⟨by decide, by decide, by decide, by decide⟩
  have f2 : lowerChar c2 = 'e' ∧ upperChar c2 = 'E' ∧ isWsChar c2 = false ∧
      (¬ c2 = '?' ∧ ¬ c2 = '.') := by
    rcases h2 with rfl | rfl | rfl <;> exact ⟨by decide, by decide, by decide, by decide⟩
  have f3 : lowerChar c3 = 'l' ∧ upperChar c3 = 'L' ∧ isWsChar c3 = false ∧
      (¬ c3 = '?' ∧ ¬ c3 = '.') := by
    rcases h3 with rfl | rfl | rfl <;> exact ⟨by decide, by decide, by decide, by decide⟩
  have f4 : lowerChar c4 = 'e' ∧ upperChar c4 = 'E' ∧ isWsChar c4 = false ∧
      (¬ c4 = '?' ∧ ¬ c4 = '.') := by
    rcases h4 with rfl | rfl | rfl <;> exact ⟨by decide, by decide, by decide, by decide⟩
  have f5 : lowerChar c5 = 't' ∧ upperChar c5 = 'T' ∧ isWsChar c5 = false ∧
      (¬ c5 = '?' ∧ ¬ c5 = '.') := by
    rcases h5 with rfl | rfl | rfl <;> exact ⟨by decide, by decide, by decide, by decide⟩
  have f6 : lowerChar c6 = 'e' ∧ upperChar c6 = 'E' ∧ isWsChar c6 = false ∧
      (¬ c6 = '?' ∧ ¬ c6 = '.') := by
    rcases h6 with rfl | rfl | rfl <;> exact ⟨by decide, by decide, by decide, by decide⟩
  have f8 : lowerChar c8 = 'p' ∧ upperChar c8 = 'P' ∧ isWsChar c8 = false ∧
      (¬ c8 = '?' ∧ ¬ c8 = '.') := by
    rcases h8 with rfl | rfl | rfl <;> exact ⟨by decide, by decide, by decide, by decide⟩
  have hlop : (p.map lowerChar = [] ∧ stripPunct p = []) ∨
      (p.map lowerChar = ['?'] ∧ stripPunct p = []) ∨
      (p.map lowerChar = ['.'] ∧ stripPunct p = []) := by
    rcases hp with rfl | rfl | rfl
    · exact Or.inl ⟨by decide, by decide⟩
    · exact Or.inr (Or.inl ⟨by decide, by decide⟩)
    · exact Or.inr (Or.inr ⟨by decide, by decide⟩)
  have hstrip : stripPunct
      (c1 :: c2 :: c3 :: c4 :: c5 :: c6 :: ' ' :: c8 :: '0' :: '0' :: '1' :: [] ++ p) =
      c1 :: c2 :: c3 :: c4 :: c5 :: c6 :: ' ' :: c8 :: '0' :: '0' :: '1' :: [] := by
    unfold stripPunct
    rw [List.filter_append]
    have hpz : List.filter (fun c => !(c == '?' || c == '.')) p = [] := by
      rcases hp with rfl | rfl | rfl <;> decide
    rw [hpz, List.append_nil]
    simp [List.filter_cons, f1.2.2.2, f2.2.2.2, f3.2.2.2, f4.2.2.2, f5.2.2.2,
      f6.2.2.2, f8.2.2.2]
  have wsp : isWsChar ' ' = true := by decide
  have wz : isWsChar '0' = false := by decide
  have wo : isWsChar '1' = false := by decide
  have hsplit : splitWs
      (c1 :: c2 :: c3 :: c4 :: c5 :: c6 :: ' ' :: c8 :: '0' :: '0' :: '1' :: []) =
      [[c1, c2, c3, c4, c5, c6], [c8, '0', '0', '1']] := by
    simp [splitWs, splitWsAux, f1.2.2.1, f2.2.2.1, f3.2.2.1, f4.2.2.1, f5.2.2.1,
      f6.2.2.1, f8.2.2.1, wsp, wz, wo]
  have hw1 : classifyWord [c1, c2, c3, c4, c5, c6] = none := by
    have hm1 : [c1, c2, c3, c4, c5, c6].map upperChar = "DELETE".toList := by
      simp [f1.2.1, f2.2.1, f3.2.1, f4.2.1, f5.2.1, f6.2.1]
    simp only [classifyWord, hm1]
    decide
  have hw2 : classifyWord [c8, '0', '0', '1'] = some ("P001".toList, "pilot") := by
    have hm2 : [c8, '0', '0', '1'].map upperChar = "P001".toList := by
      simp [f8.2.1]
      decide
    simp only [classifyWord, hm2]
    decide
  have hent : extract_entity
      (c1 :: c2 :: c3 :: c4 :: c5 :: c6 :: ' ' :: c8 :: '0' :: '0' :: '1' :: [] ++ p) =
      some ("P001".toList, "pilot") := by
    unfold extract_entity
    rw [hstrip, hsplit]
    simp [List.findSome?, hw1, hw2]
  have hlo : (c1 :: c2 :: c3 :: c4 :: c5 :: c6 :: ' ' :: c8 :: '0' :: '0' :: '1' :: []
      ++ p).map lowerChar = "delete p001".toList ++ p.map lowerChar := by
    rw [List.map_append]
    have l7 : lowerChar ' ' = ' ' := by decide
    have l9 : lowerChar '0' = '0' := by decide
    have l11 : lowerChar '1' = '1' := by decide
    simp [f1.1, f2.1, f3.1, f4.1, f5.1, f6.1, f8.1, l7, l9, l11]
  refine ⟨?_, ?_, ?_⟩
  · show detect_intent ((c1 :: c2 :: c3 :: c4 :: c5 :: c6 :: ' ' :: c8 :: '0' :: '0' ::
      '1' :: [] ++ p).map lowerChar) = some "delete"
    rw [hlo]
    rcases hlop with ⟨hm, -⟩ | ⟨hm, -⟩ | ⟨hm, -⟩ <;> rw [hm] <;> decide
  · show (extract_entity _).map (fun e => e.1) = some ("P001".toList)
    rw [hent]
    rfl
  · show (extract_entity _).map (fun e => e.2) = some "pilot"
    rw [hent]
    rfl

/-- Witness for C8's amended theorem at the concrete variant
`'DELETE P001?'`. -/
theorem extractor_delete_variants_witness :
    casingVariantOf ("DELETE P001".toList) ("Delete P001".toList)
    ∧ ((parse_intent ("DELETE P001".toList ++ "?".toList)).1 = some "delete"
      ∧ (parse_intent ("DELETE P001".toList ++ "?".toList)).2.1 = some ("P001".toList)
      ∧ (parse_intent ("DELETE P001".toList ++ "?".toList)).2.2.1 = some "pilot") :=
  ⟨by unfold casingVariantOf; decide,
    extractor_delete_variants ("DELETE P001".toList) ("?".toList)
      (by unfold casingVariantOf; decide) (Or.inr (Or.inl rfl))⟩
